import Mathlib

/-!
Verification of the service core of `src/backend/api_linux.py` (the
AR_model_viewer backend): startup device selection and pipeline load,
the job runner `process_image_to_glb_bytes`, and the FastAPI endpoints
`root` (`GET /`) and `convert_image` (`POST /convert`).

External collaborators (the Trellis pipeline, the glb export encoder,
PIL image decoding, the CUDA runtime) are modelled as oracles whose
outcomes are fields of an environment record: each call either returns
a value or raises, exactly at the call sites the Python code has.
Python exceptions are modelled with `Except String`; the side effects
relevant to the spec (calling `pipeline.run`, `to_glb`, `glb.export`,
`del outputs`, `torch.cuda.empty_cache()`) are recorded as an event
trace emitted alongside each result.
-/

namespace ARViewer

/-- Compute backends the startup code can bind (`"cuda"` or `"cpu"`,
api_linux.py lines 20-25). -/
inductive Device where
  | cuda
  | cpu
deriving DecidableEq, Repr

/-- Startup environment: whether `torch.cuda.is_available()` holds, and the
outcome of `TrellisImageTo3DPipeline.from_pretrained(...)` followed by
`pipeline.to(device)` (the body of the `try` at lines 27-32; any raise in it
is one `Except.error`). -/
structure StartupEnv where
  cudaAvailable : Bool
  loadResult : Except String Unit
deriving Repr

/-- Process-wide globals bound at module load: `device` and `pipeline`
(api_linux.py lines 19-35).  `pipeline = some ()` models a loaded pipeline
object, `none` models `pipeline = None`. -/
structure ServerState where
  device : Device
  pipeline : Option Unit
deriving DecidableEq, Repr

/-- The CUDA warning printed when no accelerator is detected (line 21). -/
def cudaWarning : String :=
  "WARNING: CUDA not detected. TRELLIS requires an NVIDIA GPU to run."

/-- The load-failure message printed at line 34. -/
def loadFailedMsg (e : String) : String := "Model Load Failed: " ++ e

/-- Startup (api_linux.py lines 19-35): pick `device` from CUDA availability
(falling back to `"cpu"` with a printed warning), then try to construct and
bind the pipeline; on any exception print the failure and set
`pipeline = None`.  Returns the resulting globals together with the list of
printed warnings/errors.  Total by construction: the `except` clause at
lines 33-35 means module load itself never propagates the failure. -/
def startServer (env : StartupEnv) : ServerState × List String :=
  let (device, warns) :=
    if env.cudaAvailable then (Device.cuda, ([] : List String))
    else (Device.cpu, [cudaWarning])
  match env.loadResult with
  | Except.ok u => ({ device := device, pipeline := some u }, warns)
  | Except.error e => ({ device := device, pipeline := none }, warns ++ [loadFailedMsg e])

/-- Events a job emits while running: the three external calls of
`process_image_to_glb_bytes` plus the two cleanup effects at lines 74-76. -/
inductive Ev where
  | callRun
  | callToGlb
  | callExport
  | delOutputs
  | emptyCache
deriving DecidableEq, Repr

/-- Environment for one job: outcomes of `pipeline.run` (line 56),
`postprocessing_utils.to_glb` on `outputs['gaussian'][0]` / `outputs['mesh'][0]`
(lines 62-67, any KeyError/IndexError in the argument lookups folded into this
outcome), and `glb.export` + `glb_buffer.getvalue()` (lines 69-71, producing
the glb bytes); plus `torch.cuda.is_available()` as re-checked at line 75. -/
structure ComputeEnv where
  runResult : Except String Unit
  toGlbResult : Except String Unit
  exportResult : Except String (List Nat)
  cudaAvailable : Bool
deriving Repr

/-- Job runner `process_image_to_glb_bytes` (api_linux.py lines 51-78),
with its event trace.  Faithful control flow: the `RuntimeError("Model is
not loaded.")` guard at lines 52-53 fires before any external call; each
subsequent call raises by propagating its error immediately, so the inline
cleanup at lines 73-76 (`del outputs`, then `torch.cuda.empty_cache()`
guarded by `torch.cuda.is_available()`) executes only after a successful
export. -/
def process_image_to_glb_bytes (pipeline : Option Unit) (env : ComputeEnv) :
    Except String (List Nat) × List Ev :=
  match pipeline with
  | none => (Except.error "Model is not loaded.", [])
  | some _ =>
    match env.runResult with
    | Except.error e => (Except.error e, [Ev.callRun])
    | Except.ok _ =>
      match env.toGlbResult with
      | Except.error e => (Except.error e, [Ev.callRun, Ev.callToGlb])
      | Except.ok _ =>
        match env.exportResult with
        | Except.error e => (Except.error e, [Ev.callRun, Ev.callToGlb, Ev.callExport])
        | Except.ok glb_bytes =>
          (Except.ok glb_bytes,
            [Ev.callRun, Ev.callToGlb, Ev.callExport, Ev.delOutputs] ++
              (if env.cudaAvailable then [Ev.emptyCache] else []))

/-- Boolean success test for an `Except` result. -/
def isOkB {ε α : Type} : Except ε α → Bool
  | Except.ok _ => true
  | Except.error _ => false

/-- Characters removed by file-name sanitization: path separators and the
reserved/unsafe punctuation and control characters. -/
def unsafeChar (c : Char) : Bool :=
  c = '/' || c = '\\' || c = ':' || c = '*' || c = '?' || c = '\"' ||
    c = '<' || c = '>' || c = '|' || c.toNat < 32

/-- Modelled from the spec: `sanitize` (api_linux.py line 87) comes from the
external `sanitize_filename` dependency, whose source is not under src/.
The spec (section 4.4, step 2) says it removes "path-traversal and unsafe
characters" from the client-supplied file name; modelled as dropping every
unsafe character. -/
def sanitize (name : List Char) : List Char :=
  name.filter (fun c => !unsafeChar c)

/-- Modelled from the spec: `os.path.splitext` (api_linux.py line 88) is
Python standard library, not under src/.  The spec says the derived base
name "has its extension stripped"; modelled with CPython's `posixpath`
semantics on a separator-free name: the root is everything before the last
dot, except that a name consisting of leading dots only has no extension. -/
def splitextRoot (s : List Char) : List Char :=
  match ((List.range s.length).filter (fun i => s.get? i = some '.')).getLast? with
  | none => s
  | some d =>
    if (List.range d).all (fun i => s.get? i = some '.') then s else s.take d

/-- Base-name derivation of the conversion handler (api_linux.py lines
86-89): sanitize the client file name, strip its extension, and fall back
to `"output"` when the result is empty. -/
def baseNameOf (original : List Char) : List Char :=
  let safe_name := sanitize original
  let base_name := splitextRoot safe_name
  if base_name = [] then "output".toList else base_name

/-- The download file name proposed in the Content-Disposition header
(api_linux.py line 102): `f\x7bbase_name\x7d.glb` inside the quotes. -/
def glbName (original : List Char) : List Char :=
  baseNameOf original ++ ".glb".toList

/-- The full Content-Disposition header value built at line 102. -/
def dispositionOf (original : List Char) : List Char :=
  "attachment; filename=\"".toList ++ glbName original ++ "\"".toList

/-- Bodies an endpoint can produce: raw artifact bytes (the success
`Response`), the error object `\x7b"error": str(e)\x7d` of the 500
`JSONResponse`, or the root endpoint's status dictionary. -/
inductive RespBody where
  | bytes (b : List Nat)
  | jsonError (msg : String)
  | rootInfo (statusMsg : String) (device : Device)
deriving DecidableEq, Repr

/-- An HTTP response as the handlers build it: status code, body, and the
optional media-type / Content-Disposition headers of the success path. -/
structure HttpResponse where
  status : Nat
  body : RespBody
  mediaType : Option (List Char)
  contentDisposition : Option (List Char)
deriving DecidableEq, Repr

/-- One `POST /convert` request: the client-supplied file name and the
uploaded bytes (opaque here; their decodability is the `imageOpenResult`
oracle of `GatewayEnv`). -/
structure Request where
  filename : List Char
  body : List Nat
deriving Repr

/-- Per-request environment of the conversion handler: the outcome of
`Image.open(io.BytesIO(image_data))` (line 94, run in the threadpool) and
the job environment consumed by `process_image_to_glb_bytes`. -/
structure GatewayEnv where
  imageOpenResult : Except String Unit
  compute : ComputeEnv
deriving Repr

/-- Conversion endpoint `convert_image` (api_linux.py lines 83-106), with
the job's event trace.  The whole body sits in one `try`: any raise from
image decoding or from the job runner reaches the `except` at lines
104-106 and becomes `JSONResponse(status_code=500, content=\x7b"error":
str(e)\x7d)`; on success lines 99-103 build a 200 `Response` with the glb
bytes, `model/gltf-binary`, and the attachment disposition. -/
def convert_image (pipeline : Option Unit) (env : GatewayEnv) (req : Request) :
    HttpResponse × List Ev :=
  match env.imageOpenResult with
  | Except.error e =>
    ({ status := 500, body := RespBody.jsonError e,
       mediaType := none, contentDisposition := none }, [])
  | Except.ok _ =>
    match process_image_to_glb_bytes pipeline env.compute with
    | (Except.error e, evs) =>
      ({ status := 500, body := RespBody.jsonError e,
         mediaType := none, contentDisposition := none }, evs)
    | (Except.ok glb_bytes, evs) =>
      ({ status := 200, body := RespBody.bytes glb_bytes,
         mediaType := some "model/gltf-binary".toList,
         contentDisposition := some (dispositionOf req.filename) }, evs)

/-- Root endpoint `root` (api_linux.py lines 46-48): a 200 JSON response
reporting liveness and the bound device; reads the globals only. -/
def rootResponse (st : ServerState) : HttpResponse :=
  { status := 200,
    body := RespBody.rootInfo "✅ Backend is running!" st.device,
    mediaType := none, contentDisposition := none }

/-- A request arriving at the service: `GET /` or `POST /convert`. -/
inductive IncomingReq where
  | getRoot
  | postConvert (env : GatewayEnv) (req : Request)

/-- Dispatch one request against the current globals.  Neither handler body
contains an assignment to (or `global` declaration of) `device` or
`pipeline`, so the globals after the call are the globals before it. -/
def handle (st : ServerState) (q : IncomingReq) : HttpResponse × ServerState :=
  match q with
  | IncomingReq.getRoot => (rootResponse st, st)
  | IncomingReq.postConvert env req => ((convert_image st.pipeline env req).1, st)

/-- Globals after serving a sequence of requests. -/
def runSeq (st : ServerState) : List IncomingReq → ServerState
  | [] => st
  | q :: qs => runSeq (handle st q).2 qs

/-!
Offload-layer schedule model.  `convert_image` offloads `Image.open` and
`process_image_to_glb_bytes` to the FastAPI/AnyIO worker threadpool via
`run_in_threadpool` (api_linux.py lines 94 and 97).  `api_linux.py`
contains no lock, semaphore or other mutual-exclusion primitive, so the
only constraint the code places on how the worker threads of concurrently
submitted jobs interleave is each job's own program order: decode the
image, enter `pipeline.run`, leave `pipeline.run`, export.  A schedule is
a list of (job id, phase step) events; it is admitted by the code when
every event belongs to one of the N submitted jobs and each job's own
events follow program order.
-/

/-- The observable phase steps of one offloaded job, in program order. -/
inductive Step where
  | decode
  | enterRun
  | exitRun
  | exportStep
deriving DecidableEq, Repr

/-- Program order of one job's phase steps (lines 94, 56, 70 of the
handler/runner). -/
def jobProgram : List Step :=
  [Step.decode, Step.enterRun, Step.exitRun, Step.exportStep]

/-- One schedule event: which job performed which phase step. -/
abbrev SchedEv := Nat × Step

/-- The steps job `j` performs in schedule `t`, in order. -/
def stepsOf (j : Nat) (t : List SchedEv) : List Step :=
  (t.filter (fun e => e.1 = j)).map (fun e => e.2)

/-- `isPre xs ys`: `xs` is a prefix of `ys`. -/
def isPre : List Step → List Step → Bool
  | [], _ => true
  | _ :: _, [] => false
  | a :: as, b :: bs => a == b && isPre as bs

/-- A schedule of `n` concurrently submitted jobs that the code admits:
every event belongs to a submitted job, and each job's events follow its
program order (possibly still incomplete).  No other constraint exists in
`api_linux.py`: it takes no lock around the inference call. -/
def validSched (n : Nat) (t : List SchedEv) : Prop :=
  (∀ e ∈ t, e.1 < n) ∧ ∀ j, isPre (stepsOf j t) jobProgram = true

/-- Job `j` is inside `pipeline.run` after the events `t`: it has entered
more often than it has exited (each job enters at most once). -/
def inRun (j : Nat) (t : List SchedEv) : Bool :=
  t.count (j, Step.exitRun) < t.count (j, Step.enterRun)

/-- Two distinct jobs are simultaneously inside `pipeline.run` at some
instant of the schedule. -/
def runOverlap (t : List SchedEv) : Prop :=
  ∃ k j1 j2, j1 ≠ j2 ∧ inRun j1 (t.take k) = true ∧ inRun j2 (t.take k) = true

/-- A concrete two-job schedule: both jobs decode, then both enter
`pipeline.run` before either leaves. -/
def ovSched : List SchedEv :=
  [(0, Step.decode), (1, Step.decode), (0, Step.enterRun), (1, Step.enterRun),
   (0, Step.exitRun), (1, Step.exitRun), (0, Step.exportStep), (1, Step.exportStep)]

/-- A job environment in which `pipeline.run` raises and everything else
would have succeeded (CUDA present). -/
def genFailEnv : ComputeEnv :=
  { runResult := Except.error "CUDA out of memory",
    toGlbResult := Except.ok (), exportResult := Except.ok [103, 108, 84, 70],
    cudaAvailable := true }

/-- A job environment in which every external call succeeds (CUDA present);
the export produces the bytes `"glTF"`. -/
def allOkCompute : ComputeEnv :=
  { runResult := Except.ok (), toGlbResult := Except.ok (),
    exportResult := Except.ok [103, 108, 84, 70], cudaAvailable := true }

/-- A request environment where image decoding succeeds and the job would
succeed. -/
def allOkGateway : GatewayEnv :=
  { imageOpenResult := Except.ok (), compute := allOkCompute }

/-- A request environment where image decoding raises
(`PIL.UnidentifiedImageError`). -/
def decodeFailGateway : GatewayEnv :=
  { imageOpenResult := Except.error "cannot identify image file",
    compute := allOkCompute }

/-- A sample upload request. -/
def sampleReq : Request := { filename := "photo.png".toList, body := [1, 2, 3] }

/-- Elements of the stripped base name come from the sanitized name:
`splitextRoot` returns its argument or a `take` of it. -/
theorem splitextRoot_subset (s : List Char) : splitextRoot s ⊆ s := by
  unfold splitextRoot
  cases ((List.range s.length).filter (fun i => s.get? i = some '.')).getLast? with
  | none => exact List.Subset.refl s
  | some d =>
    dsimp only
    split
    · exact List.Subset.refl s
    · exact List.take_subset d s

/-- Claim C1: the spec says the Intermediate Representation is released and
the accelerator cache-reclaim call issued on every exit path, exactly once
per job.  On the code this fails: when `pipeline.run` raises (with the
pipeline loaded and CUDA available), the exception propagates past the
inline cleanup at lines 73-76, so no `del outputs` and no
`torch.cuda.empty_cache()` happen — the reclaim count is 0, not 1. -/
theorem c1_reclaim_skipped_on_failure :
    isOkB (process_image_to_glb_bytes (some ()) genFailEnv).1 = false ∧
    (process_image_to_glb_bytes (some ()) genFailEnv).2.count Ev.emptyCache = 0 ∧
    Ev.delOutputs ∉ (process_image_to_glb_bytes (some ()) genFailEnv).2 ∧
    ¬ ((process_image_to_glb_bytes (some ()) genFailEnv).2.count Ev.emptyCache = 1) := by
  decide

/-- Claim C1 (amended): the cleanup is inline code on the success path
only.  For every job, the cache-reclaim call is issued once if the job
succeeded and CUDA is available, and zero times otherwise; the Intermediate
Representation is released (`del outputs`) exactly when the job
succeeded. -/
theorem c1_cleanup_success_only (pipeline : Option Unit) (env : ComputeEnv) :
    ((process_image_to_glb_bytes pipeline env).2.count Ev.emptyCache =
      if isOkB (process_image_to_glb_bytes pipeline env).1 && env.cudaAvailable
      then 1 else 0) ∧
    (Ev.delOutputs ∈ (process_image_to_glb_bytes pipeline env).2 ↔
      isOkB (process_image_to_glb_bytes pipeline env).1 = true) := by
  rcases env with ⟨r, g, ex, cu⟩
  cases pipeline <;> cases r <;> cases g <;> cases ex <;> cases cu <;>
    simp [process_image_to_glb_bytes, isOkB]

/-- The two-job overlapping schedule is admitted by the code for any number
`n ≥ 2` of submitted jobs: its events belong to jobs 0 and 1, each of which
follows its program order, and `api_linux.py` imposes no further
constraint (it contains no lock). -/
theorem ovSched_valid (n : Nat) (hn : 2 ≤ n) : validSched n ovSched := by
  constructor
  · intro e he
    have h01 : e.1 = 0 ∨ e.1 = 1 := by
      simp only [ovSched, List.mem_cons, List.not_mem_nil, or_false] at he
      rcases he with h | h | h | h | h | h | h | h <;> subst h <;> simp
    rcases h01 with h | h <;> omega
  · intro j
    match j with
    | 0 => rfl
    | 1 => rfl
    | (k + 2) => rfl

/-- Claim C2: the spec says access to the handle's generation operation is
serialized by a mutual-exclusion section, so no valid schedule of `n ≥ 2`
concurrent jobs has overlapping `run` calls.  False on the code: there is
no lock in `api_linux.py`, and the schedule `ovSched` — admitted by the
code's only constraint, per-job program order — has jobs 0 and 1 inside
`pipeline.run` simultaneously after its fourth event. -/
theorem c2_no_serialization :
    ¬ (∀ n, 2 ≤ n → ∀ t, validSched n t → ¬ runOverlap t) := by
  intro h
  exact h 2 (by decide) ovSched (ovSched_valid 2 (by decide))
    ⟨4, 0, 1, by decide, by decide, by decide⟩

/-- Claim C2 (amended): nothing serializes the inference call.  For every
`n ≥ 2` concurrently submitted jobs, the offload layer admits a schedule in
which two distinct jobs are inside the handle's `run` call at the same
instant. -/
theorem c2_overlap_admitted (n : Nat) (hn : 2 ≤ n) :
    ∃ t, validSched n t ∧ runOverlap t :=
  ⟨ovSched, ovSched_valid n hn, ⟨4, 0, 1, by decide, by decide, by decide⟩⟩

/-- Witness for `c2_overlap_admitted` at `n = 2`. -/
theorem c2_overlap_admitted_witness :
    2 ≤ 2 ∧ ∃ t, validSched 2 t ∧ runOverlap t :=
  ⟨by decide, c2_overlap_admitted 2 (by decide)⟩

/-- Claim C3: with the pipeline absent (`pipeline = None`), the job runner
fails with the resource-unavailable error before any external call (its
trace is empty, in particular no `pipeline.run` call), and `POST /convert`
with any decodable upload returns a 500 error payload, never a 200. -/
theorem c3_unavailable_resource (cenv : ComputeEnv) (env : GatewayEnv) (req : Request)
    (himg : isOkB env.imageOpenResult = true) :
    process_image_to_glb_bytes none cenv = (Except.error "Model is not loaded.", []) ∧
    (convert_image none env req).1.status = 500 ∧
    (convert_image none env req).1.status ≠ 200 ∧
    (convert_image none env req).1.body = RespBody.jsonError "Model is not loaded." ∧
    Ev.callRun ∉ (convert_image none env req).2 := by
  rcases env with ⟨img, cenv2⟩
  cases img with
  | error e => simp [isOkB] at himg
  | ok u => exact ⟨rfl, by simp [convert_image, process_image_to_glb_bytes]⟩

/-- Witness for `c3_unavailable_resource` at a concrete decodable upload. -/
theorem c3_unavailable_resource_witness :
    isOkB allOkGateway.imageOpenResult = true ∧
    ((convert_image none allOkGateway sampleReq).1.status = 500 ∧
      (convert_image none allOkGateway sampleReq).1.body =
        RespBody.jsonError "Model is not loaded.") :=
  ⟨by decide,
    (c3_unavailable_resource allOkCompute allOkGateway sampleReq (by decide)).2.1,
    (c3_unavailable_resource allOkCompute allOkGateway sampleReq (by decide)).2.2.2.1⟩

/-- Claim C7: when the uploaded bytes are not a valid image, `Image.open`
raises, the handler returns a 500 with the decode error message, and the
job trace is empty — no call ever reaches the pipeline. -/
theorem c7_decode_failure (p : Option Unit) (env : GatewayEnv) (req : Request)
    (m : String) (h : env.imageOpenResult = Except.error m) :
    (convert_image p env req).1.status = 500 ∧
    (convert_image p env req).1.body = RespBody.jsonError m ∧
    (convert_image p env req).2 = [] ∧
    Ev.callRun ∉ (convert_image p env req).2 := by
  simp [convert_image, h]

/-- Witness for `c7_decode_failure` at a concrete non-image upload. -/
theorem c7_decode_failure_witness :
    decodeFailGateway.imageOpenResult = Except.error "cannot identify image file" ∧
    ((convert_image (some ()) decodeFailGateway sampleReq).1.status = 500 ∧
      (convert_image (some ()) decodeFailGateway sampleReq).2 = []) :=
  ⟨rfl,
    (c7_decode_failure (some ()) decodeFailGateway sampleReq
      "cannot identify image file" rfl).1,
    (c7_decode_failure (some ()) decodeFailGateway sampleReq
      "cannot identify image file" rfl).2.2.1⟩

/-- Claim C6: every per-request failure is caught at the gateway boundary:
each response is either a 500 carrying a structured error object and no
artifact bytes, or a 200 carrying exactly the complete exported artifact
bytes and no error object — never both, never partial bytes. -/
theorem c6_error_boundary (p : Option Unit) (env : GatewayEnv) (req : Request) :
    ((convert_image p env req).1.status = 500 ∧
      (∃ m, (convert_image p env req).1.body = RespBody.jsonError m) ∧
      ∀ b, (convert_image p env req).1.body ≠ RespBody.bytes b) ∨
    ((convert_image p env req).1.status = 200 ∧
      (∃ b, (convert_image p env req).1.body = RespBody.bytes b ∧
        env.compute.exportResult = Except.ok b) ∧
      ∀ m, (convert_image p env req).1.body ≠ RespBody.jsonError m) := by
  rcases env with ⟨img, r, g, ex, cu⟩
  cases img <;> cases p <;> cases r <;> cases g <;> cases ex <;>
    simp [convert_image, process_image_to_glb_bytes]

/-- Claim C5: on a successful job, `POST /convert` responds 200 with body
equal to the complete artifact bytes, media type `model/gltf-binary`, and a
Content-Disposition of `attachment; filename="<base_name>.glb"`. -/
theorem c5_success_response (env : GatewayEnv) (req : Request)
    (b : List Nat) (evs : List Ev)
    (himg : isOkB env.imageOpenResult = true)
    (hjob : process_image_to_glb_bytes (some ()) env.compute = (Except.ok b, evs)) :
    (convert_image (some ()) env req).1 =
      { status := 200, body := RespBody.bytes b,
        mediaType := some "model/gltf-binary".toList,
        contentDisposition := some ("attachment; filename=\"".toList ++
          baseNameOf req.filename ++ ".glb\"".toList) } := by
  rcases env with ⟨img, cenv⟩
  cases img with
  | error e => simp [isOkB] at himg
  | ok u =>
    simp only [convert_image]
    rw [show (process_image_to_glb_bytes (some ()) cenv) = (Except.ok b, evs) from hjob]
    simp [dispositionOf, glbName]

/-- Witness for `c5_success_response` at a concrete all-success request. -/
theorem c5_success_response_witness :
    isOkB allOkGateway.imageOpenResult = true ∧
    process_image_to_glb_bytes (some ()) allOkGateway.compute =
      (Except.ok [103, 108, 84, 70],
        [Ev.callRun, Ev.callToGlb, Ev.callExport, Ev.delOutputs, Ev.emptyCache]) ∧
    (convert_image (some ()) allOkGateway sampleReq).1 =
      { status := 200, body := RespBody.bytes [103, 108, 84, 70],
        mediaType := some "model/gltf-binary".toList,
        contentDisposition := some ("attachment; filename=\"".toList ++
          baseNameOf sampleReq.filename ++ ".glb\"".toList) } :=
  ⟨by decide, rfl,
    c5_success_response allOkGateway sampleReq [103, 108, 84, 70]
      [Ev.callRun, Ev.callToGlb, Ev.callExport, Ev.delOutputs, Ev.emptyCache]
      (by decide) rfl⟩

/-- Claim C4: for every client-supplied file name, the derived base name
contains no unsafe character (in particular no path separator), equals the
extension-stripped sanitized name unless that is empty, falls back to
`"output"` whenever sanitization yields the empty name, and the proposed
download name is always the base name followed by `.glb`. -/
theorem c4_safe_base_name (name : List Char) :
    (∀ c ∈ baseNameOf name, unsafeChar c = false) ∧
    '/' ∉ baseNameOf name ∧
    '\\' ∉ baseNameOf name ∧
    (splitextRoot (sanitize name) ≠ [] →
      baseNameOf name = splitextRoot (sanitize name)) ∧
    (sanitize name = [] → baseNameOf name = "output".toList) ∧
    glbName name = baseNameOf name ++ ".glb".toList := by
  have hsafe : ∀ c ∈ baseNameOf name, unsafeChar c = false := by
    intro c hc
    unfold baseNameOf at hc
    by_cases hb : splitextRoot (sanitize name) = []
    · rw [if_pos hb] at hc
      rw [show "output".toList = ['o', 'u', 't', 'p', 'u', 't'] from rfl] at hc
      simp only [List.mem_cons, List.not_mem_nil, or_false] at hc
      rcases hc with rfl | rfl | rfl | rfl | rfl | rfl <;> decide
    · rw [if_neg hb] at hc
      have hmem : c ∈ sanitize name := splitextRoot_subset (sanitize name) hc
      have := List.of_mem_filter hmem
      simpa using this
  refine ⟨hsafe, ?_, ?_, ?_, ?_, rfl⟩
  · intro h
    have := hsafe '/' h
    simp [unsafeChar] at this
  · intro h
    have := hsafe '\\' h
    simp [unsafeChar] at this
  · intro h
    unfold baseNameOf
    rw [if_neg h]
  · intro h
    unfold baseNameOf
    rw [h]
    rfl

/-- Witness for `c4_safe_base_name` at the spec's two test inputs: the
traversal name `"../../evil<>.png"` (whose base name is safe) and the empty
name (which falls back to `"output"`). -/
theorem c4_safe_base_name_witness :
    (∀ c ∈ baseNameOf "../../evil<>.png".toList, unsafeChar c = false) ∧
    (sanitize ([] : List Char) = [] → baseNameOf [] = "output".toList) ∧
    baseNameOf [] = "output".toList :=
  ⟨(c4_safe_base_name "../../evil<>.png".toList).1,
    (c4_safe_base_name []).2.2.2.2.1,
    (c4_safe_base_name []).2.2.2.2.1 rfl⟩

/-- Claim C8: startup never propagates a failure.  If pipeline construction
raises, the globals end with `pipeline = None` (an explicit absent state),
the failure is only logged, and the process still serves requests (a
degraded 500 on conversion); if CUDA is absent, startup degrades to the
`"cpu"` device with the logged warning instead of failing hard. -/
theorem c8_degraded_startup (env : StartupEnv) :
    ((startServer env).1.device =
      if env.cudaAvailable then Device.cuda else Device.cpu) ∧
    (env.cudaAvailable = false →
      (startServer env).1.device = Device.cpu ∧
      cudaWarning ∈ (startServer env).2) ∧
    (∀ e, env.loadResult = Except.error e →
      (startServer env).1.pipeline = none ∧
      loadFailedMsg e ∈ (startServer env).2 ∧
      ∀ genv req, isOkB genv.imageOpenResult = true →
        (handle (startServer env).1 (IncomingReq.postConvert genv req)).1.status = 500) ∧
    (∀ u, env.loadResult = Except.ok u →
      (startServer env).1.pipeline = some u) := by
  rcases env with ⟨cu, lr⟩
  refine ⟨?_, ?_, ?_, ?_⟩
  · cases cu <;> cases lr <;> rfl
  · intro hcu
    subst hcu
    cases lr <;> exact ⟨rfl, by simp [startServer, cudaWarning]⟩
  · intro e he
    subst he
    refine ⟨by cases cu <;> rfl, by cases cu <;> simp [startServer], ?_⟩
    intro genv req himg
    rcases genv with ⟨img, cenv⟩
    cases img with
    | error e2 => simp [isOkB] at himg
    | ok u =>
      have hp : (startServer ⟨cu, Except.error e⟩).1.pipeline = none := by
        cases cu <;> rfl
      simp [handle, hp, convert_image, process_image_to_glb_bytes]
  · intro u hu
    subst hu
    cases cu <;> rfl

/-- Witness for `c8_degraded_startup`: no CUDA and a failing model load
yield the cpu device, the warning and error logs, a `None` pipeline, and a
500 on a concrete conversion request. -/
theorem c8_degraded_startup_witness :
    ((startServer ⟨false, Except.error "weights missing"⟩).1.device = Device.cpu ∧
      cudaWarning ∈ (startServer ⟨false, Except.error "weights missing"⟩).2) ∧
    ((startServer ⟨false, Except.error "weights missing"⟩).1.pipeline = none ∧
      loadFailedMsg "weights missing" ∈
        (startServer ⟨false, Except.error "weights missing"⟩).2 ∧
      (handle (startServer ⟨false, Except.error "weights missing"⟩).1
        (IncomingReq.postConvert allOkGateway sampleReq)).1.status = 500) :=
  ⟨(c8_degraded_startup ⟨false, Except.error "weights missing"⟩).2.1 rfl,
    ((c8_degraded_startup ⟨false, Except.error "weights missing"⟩).2.2.1
      "weights missing" rfl).1,
    ((c8_degraded_startup ⟨false, Except.error "weights missing"⟩).2.2.1
      "weights missing" rfl).2.1,
    ((c8_degraded_startup ⟨false, Except.error "weights missing"⟩).2.2.1
      "weights missing" rfl).2.2 allOkGateway sampleReq (by decide)⟩

/-- Claim C9: extension stripping removes only the final extension: the
upload name `"model.tar.gz"` yields base name `"model.tar"` and download
name `"model.tar.glb"`, not `"model.glb"`. -/
theorem c9_final_extension_only :
    baseNameOf "model.tar.gz".toList = "model.tar".toList ∧
    glbName "model.tar.gz".toList = "model.tar.glb".toList ∧
    glbName "model.tar.gz".toList ≠ "model.glb".toList := by
  refine ⟨rfl, rfl, ?_⟩
  decide

/-- Claim C10: the globals are write-once at startup: serving any sequence
of requests leaves `device` and `pipeline` unchanged, and `GET /` always
returns 200 with the device value selected at startup. -/
theorem c10_device_immutable (st : ServerState) (qs : List IncomingReq) :
    runSeq st qs = st ∧
    (handle (runSeq st qs) IncomingReq.getRoot).1 = rootResponse st ∧
    (rootResponse st).status = 200 ∧
    (rootResponse st).body = RespBody.rootInfo "✅ Backend is running!" st.device := by
  have hrun : runSeq st qs = st := by
    induction qs with
    | nil => rfl
    | cons q qs ih =>
      have hq : (handle st q).2 = st := by cases q <;> rfl
      calc runSeq st (q :: qs) = runSeq (handle st q).2 qs := rfl
        _ = runSeq st qs := by rw [hq]
        _ = st := ih
  exact ⟨hrun, by rw [hrun]; rfl, rfl, rfl⟩

end ARViewer
